import Mathlib

/- Shallow embedding of the PokemonTCG frontend client core:
   - src/frontend/src/services/PokemonWebSocketService.ts
     (connection lifecycle, event registry, outbound send guards)
   - src/frontend/src/hooks/usePokemonGame.tsx
     (mirrored game state, AI thinking flag, rolling game log)
   - src/frontend/src/components/PokemonGameBoard.tsx
     (optimistic play_pokemon transform)
   TypeScript numbers are modelled as Int, optional fields as Option,
   and JavaScript falsiness of strings (undefined or empty) explicitly. -/

namespace PokemonTCG

/-- From services/PokemonWebSocketService.ts, interface Attack. -/
structure Attack where
  name : String
  damage : Int
  cost : List String
  effect : Option String
deriving DecidableEq

/-- From services/PokemonWebSocketService.ts, interface PokemonCard. -/
structure PokemonCard where
  id : String
  name : String
  hp : Int
  types : List String
  attacks : List Attack
deriving DecidableEq

/-- From services/PokemonWebSocketService.ts, interface Player. -/
structure Player where
  name : String
  active_pokemon : Option PokemonCard
  benched_pokemon : List PokemonCard
  hand : Option (List PokemonCard)
  hand_count : Option Int
  prize_cards : Int
deriving DecidableEq

/-- TS union type: current_turn is the literal string child or ai. -/
inductive TurnOwner where
  | child
  | ai
deriving DecidableEq

/-- TS union type: game_phase is setup, playing or finished. -/
inductive GamePhase where
  | setup
  | playing
  | finished
deriving DecidableEq

/-- From services/PokemonWebSocketService.ts, interface GameState. -/
structure GameState where
  current_turn : TurnOwner
  turn_number : Int
  game_phase : GamePhase
  child_player : Player
  ai_player : Player
  winner : Option String
deriving DecidableEq

/-- From services/PokemonWebSocketService.ts, interface AIDecision. -/
structure AIDecision where
  action : String
  explanation : String
  type_lesson : Option String
  strategic_insight : Option String
  ai_thinking : Option String
deriving DecidableEq

/-- The result field read by the player_action_result handler
    (message.result.message). -/
structure ActionResult where
  message : String
deriving DecidableEq

/-- From services/PokemonWebSocketService.ts, interface PokemonGameMessage:
    a type discriminator plus arbitrary extra fields; we model exactly the
    optional fields the usePokemonGame handlers read. -/
structure PokemonGameMessage where
  type : String
  game_state : Option GameState
  message : Option String
  ai_decision : Option AIDecision
  result : Option ActionResult
  explanation : Option String
deriving DecidableEq

/-- JavaScript `x || d` on an optional string field: undefined and the
    empty string are falsy. -/
def jsOr (o : Option String) (d : String) : String :=
  match o with
  | some x => if x = "" then d else x
  | none => d

/-- JavaScript template interpolation of a possibly-undefined string:
    undefined renders as the string "undefined". -/
def jsTemplate (o : Option String) : String :=
  o.getD "undefined"

/-- JavaScript truthiness test on an optional string (used by
    `if (decision.type_lesson)` in the ai_decision_made handler). -/
def jsTruthy (o : Option String) : Bool :=
  match o with
  | some x => x ≠ ""
  | none => false

/-- The state owned by the usePokemonGame hook that the inbound message
    handlers mutate (connection flags are driven by service-synthesised
    events, which are not inbound game messages, and are omitted). -/
structure HookState where
  gameState : Option GameState
  aiThinking : Bool
  aiDecision : Option AIDecision
  gameLog : List String
deriving DecidableEq

/-- hooks/usePokemonGame.tsx line 122:
    setGameLog(prev => [...prev.slice(-19), message]) — keep the last 19
    previous entries and append the new one. -/
def addToGameLog (log : List String) (msg : String) : List String :=
  log.drop (log.length - 19) ++ [msg]

/-- Initial gameLog of the hook (usePokemonGame.tsx lines 33 to 36). -/
def initialGameLog : List String :=
  ["🎮 Welcome to Pokemon TCG AI Education!",
   "🤖 Connect to start playing with AI opponents..."]

/-- Initial hook state (usePokemonGame.tsx lines 30 to 36). -/
def initialHookState : HookState :=
  { gameState := none, aiThinking := false, aiDecision := none,
    gameLog := initialGameLog }

/-- The ai_decision_made handler (usePokemonGame.tsx lines 76 to 91).
    State setters run first; then message.ai_decision.explanation is read
    unconditionally, so when ai_decision is absent the JS handler throws
    after the three setters and before any log append (the throw is caught
    by the emit loop of the service). -/
def handleAiDecisionMade (s : HookState) (m : PokemonGameMessage) : HookState :=
  let s1 : HookState :=
    { s with aiThinking := false, aiDecision := m.ai_decision,
             gameState := m.game_state }
  match m.ai_decision with
  | none => s1
  | some d =>
    let log1 := addToGameLog s1.gameLog ("🤖 AI Decision: " ++ d.explanation)
    let log2 := if jsTruthy d.type_lesson then
        addToGameLog log1 ("🎓 " ++ d.type_lesson.getD "") else log1
    let log3 := if jsTruthy d.strategic_insight then
        addToGameLog log2 ("🎯 " ++ d.strategic_insight.getD "") else log2
    { s1 with gameLog := log3 }

/-- Dispatch of one inbound game message to the handlers registered by
    usePokemonGame (lines 65 to 111), keyed on the type discriminator.
    An unrecognised type has no registered handler and leaves the hook
    state unchanged. -/
def processMessage (s : HookState) (m : PokemonGameMessage) : HookState :=
  if m.type = "game_state_update" then
    { s with gameState := m.game_state,
             gameLog := addToGameLog s.gameLog "🎮 Game state updated" }
  else if m.type = "ai_thinking_started" then
    { s with aiThinking := true, aiDecision := none,
             gameLog := (addToGameLog s.gameLog
               (jsOr m.message "🤖 AI is thinking...")) }
  else if m.type = "ai_decision_made" then
    handleAiDecisionMade s m
  else if m.type = "ai_error" then
    { s with aiThinking := false,
             gameLog := (addToGameLog s.gameLog
               ("❌ AI Error: " ++ jsTemplate m.message)) }
  else if m.type = "player_action_result" then
    let s1 : HookState := { s with gameState := m.game_state }
    match m.result with
    | some r => { s1 with gameLog := addToGameLog s1.gameLog ("👤 " ++ r.message) }
    | none => s1
  else if m.type = "game_reset" then
    { s with gameState := m.game_state, aiDecision := none,
             gameLog := ["🎮 New Pokemon battle started!",
                         "🔥 Choose your first move!"] }
  else if m.type = "type_advice" then
    { s with gameLog := (addToGameLog s.gameLog
        ("🎓 Type Advice: " ++ jsTemplate m.explanation)) }
  else s

/- ===== services/PokemonWebSocketService.ts: connection lifecycle ===== -/

/-- Browser WebSocket readyState values (CONNECTING, OPEN, CLOSING, CLOSED). -/
inductive ReadyState where
  | connecting
  | opened
  | closing
  | closed
deriving DecidableEq

/-- The connection handle held in the ws field of the service. -/
structure Socket where
  readyState : ReadyState
deriving DecidableEq

/-- Mutable fields of class PokemonWebSocketService that the lifecycle
    logic touches (lines 55 to 60). maxReconnectAttempts is a constant. -/
structure WSService where
  ws : Option Socket
  reconnectAttempts : Nat
  isConnecting : Bool
deriving DecidableEq

/-- PokemonWebSocketService.ts line 58: maxReconnectAttempts = 5. -/
def maxReconnectAttempts : Nat := 5

/-- Fresh service as built by the constructor (lines 55 to 60). -/
def initService : WSService :=
  { ws := none, reconnectAttempts := 0, isConnecting := false }

/-- this.ws && this.ws.readyState === WebSocket.OPEN. -/
def wsOpen (s : WSService) : Bool :=
  match s.ws with
  | some w => w.readyState = ReadyState.opened
  | none => false

/-- Events driving the service: the two caller-facing operations, and the
    three socket callbacks installed by connect() (onopen, onclose with the
    wasClean flag of the close event, onerror). A timer firing a scheduled
    reconnect delivers a callConnect event. -/
inductive SvcEvent where
  | callConnect
  | callDisconnect
  | openEvt
  | closeEvt (wasClean : Bool)
  | errorEvt
deriving DecidableEq

/-- Observable side effects of one step: construction of a new underlying
    WebSocket (new WebSocket(url)), a reconnect timer being scheduled with
    its delay in milliseconds, an event emitted to registered handlers, and
    a close handshake started with its close code. -/
inductive SvcEffect where
  | socketOpened
  | scheduledReconnect (delayMs : Nat)
  | emitted (t : String)
  | closedSocket (code : Nat)
deriving DecidableEq

/-- One step of the service, transcribed handler by handler:
    - callConnect: connect() lines 69 to 83 — returns immediately when a
      connect is in flight or the socket is open, otherwise constructs a
      new socket in the connecting state;
    - callDisconnect: disconnect() lines 143 to 148 — close(1000) and drop
      the handle;
    - openEvt: onopen lines 85 to 91 — the socket becomes open, the
      in-flight flag clears, the reconnect counter resets, connected is
      emitted;
    - closeEvt: onclose lines 103 to 116 — the handle is dropped,
      disconnected is emitted, and on an unclean close with budget left the
      counter increments and one reconnect is scheduled after
      2000 * (new counter) ms;
    - errorEvt: onerror lines 118 to 123 — the in-flight flag clears and
      error is emitted (the connect promise rejects). -/
def stepEvent (s : WSService) : SvcEvent → WSService × List SvcEffect
  | SvcEvent.callConnect =>
    if s.isConnecting || wsOpen s then (s, [])
    else ({ s with isConnecting := true,
                   ws := some { readyState := ReadyState.connecting } },
          [SvcEffect.socketOpened])
  | SvcEvent.callDisconnect =>
    match s.ws with
    | some _ => ({ s with ws := none }, [SvcEffect.closedSocket 1000])
    | none => (s, [])
  | SvcEvent.openEvt =>
    ({ s with isConnecting := false, reconnectAttempts := 0,
              ws := some { readyState := ReadyState.opened } },
     [SvcEffect.emitted "connected"])
  | SvcEvent.closeEvt wasClean =>
    if !wasClean && decide (s.reconnectAttempts < maxReconnectAttempts) then
      ({ s with isConnecting := false, ws := none,
                reconnectAttempts := s.reconnectAttempts + 1 },
       [SvcEffect.emitted "disconnected",
        SvcEffect.scheduledReconnect (2000 * (s.reconnectAttempts + 1))])
    else
      ({ s with isConnecting := false, ws := none },
       [SvcEffect.emitted "disconnected"])
  | SvcEvent.errorEvt =>
    ({ s with isConnecting := false }, [SvcEffect.emitted "error"])

/-- Run a sequence of events, accumulating effects in order. -/
def runEvents : WSService → List SvcEvent → WSService × List SvcEffect
  | s, [] => (s, [])
  | s, e :: evs =>
    let r := stepEvent s e
    let rest := runEvents r.1 evs
    (rest.1, r.2 ++ rest.2)

/-- Number of underlying socket construction attempts among the effects. -/
def countOpens (effs : List SvcEffect) : Nat :=
  effs.count SvcEffect.socketOpened

/-- Reconnect timers scheduled among the effects, with their delays. -/
def scheduledDelays (effs : List SvcEffect) : List Nat :=
  effs.filterMap (fun e =>
    match e with
    | SvcEffect.scheduledReconnect d => some d
    | _ => none)

/- ===== services/PokemonWebSocketService.ts: outbound sending ===== -/

/-- Shape of an outbound protocol message (the union of the fields built
    by the five sender methods, lines 166 to 213). -/
structure OutboundMsg where
  type : String
  action_type : Option String
  action_data : Option String
  attacking_type : Option String
  defending_type : Option String
  timestamp : Option Nat
deriving DecidableEq

/-- send() lines 153 to 161: when the socket is missing or not open, log a
    diagnostic and return without transmitting; otherwise transmit the
    message. The returned Option is the transmitted wire message. -/
def send (s : WSService) (m : OutboundMsg) : Option OutboundMsg :=
  if !(wsOpen s) then none else some m

/-- simulateAITurn() lines 166 to 171. -/
def simulateAITurn (s : WSService) (now : Nat) : Option OutboundMsg :=
  send s { type := "simulate_ai_turn", action_type := none,
           action_data := none, attacking_type := none,
           defending_type := none, timestamp := some now }

/-- sendPlayerAction() lines 176 to 183. -/
def sendPlayerAction (s : WSService) (actionType actionData : String)
    (now : Nat) : Option OutboundMsg :=
  send s { type := "player_action", action_type := some actionType,
           action_data := some actionData, attacking_type := none,
           defending_type := none, timestamp := some now }

/-- requestGameState() lines 188 to 192. -/
def requestGameState (s : WSService) : Option OutboundMsg :=
  send s { type := "get_game_state", action_type := none,
           action_data := none, attacking_type := none,
           defending_type := none, timestamp := none }

/-- resetGame() lines 197 to 202. -/
def resetGame (s : WSService) (now : Nat) : Option OutboundMsg :=
  send s { type := "reset_game", action_type := none,
           action_data := none, attacking_type := none,
           defending_type := none, timestamp := some now }

/-- requestTypeAdvice() lines 207 to 213. -/
def requestTypeAdvice (s : WSService) (attacking defending : String) :
    Option OutboundMsg :=
  send s { type := "get_type_advice", action_type := none,
           action_data := none, attacking_type := some attacking,
           defending_type := some defending, timestamp := none }

/- ===== services/PokemonWebSocketService.ts: event registry ===== -/

/-- A registered GameEventHandler. hid stands for the JS function object
    identity; run is the handler body, which may throw (Except.error). -/
structure Handler where
  hid : Nat
  run : PokemonGameMessage → Except String Unit

/-- What the emit loop did with one handler: it ran to completion, or it
    threw and the exception was caught and logged (lines 252 to 258 — the
    try/catch sits inside the forEach body, so iteration continues). -/
inductive HandlerOutcome where
  | completed (hid : Nat)
  | caught (hid : Nat) (err : String)
deriving DecidableEq

/-- The eventHandlers map, keyed by event type string. The source only
    reads the map through get(eventType), so a function model of the Map
    is faithful; per-key registration order is the list order. -/
def EventRegistry : Type := String → List Handler

/-- The empty registry (constructor, line 59). -/
def emptyRegistry : EventRegistry := fun _ => []

/-- on() lines 226 to 231: create the key slot when missing, then push the
    handler at the end of the slot for that key. -/
def registerOn (r : EventRegistry) (t : String) (h : Handler) : EventRegistry :=
  fun u => if u = t then r u ++ [h] else r u

/-- emit() lines 249 to 260: run every handler registered for the type,
    each inside its own try/catch, so a throwing handler is recorded and
    the remaining handlers still run. -/
def emit (r : EventRegistry) (t : String) (m : PokemonGameMessage) :
    List HandlerOutcome :=
  (r t).map (fun h =>
    match h.run m with
    | Except.ok _ => HandlerOutcome.completed h.hid
    | Except.error e => HandlerOutcome.caught h.hid e)

/-- handleMessage() lines 218 to 221: dispatch to the handlers of the
    specific message type, then to the generic wildcard channel. -/
def handleMessage (r : EventRegistry) (m : PokemonGameMessage) :
    List HandlerOutcome :=
  emit r m.type m ++ emit r "message" m

/-- Registry built by a sequence of on(type, handler) calls. -/
def buildRegistry (regs : List (String × Handler)) : EventRegistry :=
  regs.foldl (fun r p => registerOn r p.1 p.2) emptyRegistry

/-- The handler that an outcome belongs to. -/
def outcomeHid : HandlerOutcome → Nat
  | HandlerOutcome.completed i => i
  | HandlerOutcome.caught i _ => i

/-- Identities of the handlers a dispatch invoked, in invocation order. -/
def invokedHids (outs : List HandlerOutcome) : List Nat :=
  outs.map outcomeHid

/-- Identities of the handlers registered for a type, in registration
    order. -/
def registeredHids (regs : List (String × Handler)) (t : String) : List Nat :=
  (regs.filter (fun p => p.1 = t)).map (fun p => p.2.hid)

/- ===== components/PokemonGameBoard.tsx: optimistic play_pokemon ===== -/

/-- Child player slice of the local board state mutated by the
    play_pokemon branch of handlePlayerAction. -/
structure BoardPlayer where
  activePokemon : Option PokemonCard
  benchedPokemon : List PokemonCard
  hand : List PokemonCard
deriving DecidableEq

/-- Local board state of PokemonGameBoard (the fields the play_pokemon
    branch reads and writes). -/
structure BoardState where
  childPlayer : BoardPlayer
deriving DecidableEq

/-- PokemonGameBoard.tsx lines 855 to 874, the setGameState updater of the
    play_pokemon branch: drop every hand card sharing the played card id,
    and append the card to the bench only when the bench holds fewer than
    5 cards; otherwise return the previous state unchanged. -/
def playPokemonTransform (prev : BoardState) (pokemon : PokemonCard) :
    BoardState :=
  let newBench := prev.childPlayer.benchedPokemon
  let newHand := prev.childPlayer.hand.filter (fun p => p.id ≠ pokemon.id)
  if newBench.length < 5 then
    { prev with childPlayer :=
        { prev.childPlayer with
            benchedPokemon := newBench ++ [pokemon], hand := newHand } }
  else prev

/- ===== concrete fixtures used by witnesses and counterexamples ===== -/

/-- A concrete player record. -/
def samplePlayer : Player :=
  { name := "Ash", active_pokemon := none, benched_pokemon := [],
    hand := none, hand_count := none, prize_cards := 6 }

/-- A concrete game-state snapshot, distinguished by its turn number. -/
def sampleGameState (n : Int) : GameState :=
  { current_turn := TurnOwner.child, turn_number := n,
    game_phase := GamePhase.playing, child_player := samplePlayer,
    ai_player := samplePlayer, winner := none }

/-- A game_state_update message carrying a given snapshot. -/
def gsuMsg (g : Option GameState) : PokemonGameMessage :=
  { type := "game_state_update", game_state := g, message := none,
    ai_decision := none, result := none, explanation := none }

/-- A concrete small card used by the board-transform witness. -/
def sampleCard (i : String) : PokemonCard :=
  { id := i, name := "Eevee", hp := 50, types := ["Normal"],
    attacks := [{ name := "Tackle", damage := 10, cost := ["Colorless"],
                  effect := none }] }

/-- Trace driving the service to five consecutive failed reconnects: each
    cycle is a connect attempt followed by an unclean close before any
    open event. -/
def exhaustedTrace : List SvcEvent :=
  [SvcEvent.callConnect, SvcEvent.closeEvt false,
   SvcEvent.callConnect, SvcEvent.closeEvt false,
   SvcEvent.callConnect, SvcEvent.closeEvt false,
   SvcEvent.callConnect, SvcEvent.closeEvt false,
   SvcEvent.callConnect, SvcEvent.closeEvt false]

/-- The service state after the reconnect budget is exhausted. -/
def exhaustedState : WSService := (runEvents initService exhaustedTrace).1

/-- A narrative string a server could send along a game_reset message. -/
def serverNarrative : String := "Server narrative: the battle restarted"

/-- A game_reset message that carries a server-side narrative text. -/
def resetMsgWithNarrative : PokemonGameMessage :=
  { type := "game_reset", game_state := some (sampleGameState 1),
    message := some serverNarrative, ai_decision := none, result := none,
    explanation := none }

/-- Twenty-one log entries, for exercising the log cap. -/
def manyLogEntries : List String :=
  ["m01", "m02", "m03", "m04", "m05", "m06", "m07", "m08", "m09", "m10",
   "m11", "m12", "m13", "m14", "m15", "m16", "m17", "m18", "m19", "m20",
   "m21"]

/-- A service with a connection attempt in flight. -/
def pendingService : WSService :=
  { ws := some { readyState := ReadyState.connecting }, reconnectAttempts := 0, isConnecting := true }

/-- A disconnected service with two prior failed reconnect attempts. -/
def twoFailureService : WSService :=
  { ws := none, reconnectAttempts := 2, isConnecting := false }

/-- A concrete child board player with an empty bench and a one-card hand. -/
def sampleBoardPlayer : BoardPlayer :=
  { activePokemon := none, benchedPokemon := [], hand := [sampleCard "c1"] }

/-- A concrete board state with an empty bench and a one-card hand. -/
def sampleBoard : BoardState := { childPlayer := sampleBoardPlayer }

/-- The AI decision of the scenario in the spec (section 8). -/
def squirtleDecision : AIDecision :=
  { action := "attack", explanation := "Perfect! My Squirtle has type advantage!",
    type_lesson := some "Water beats Fire", strategic_insight := none,
    ai_thinking := none }

/-- The ai_thinking_started message of the spec scenario. -/
def thinkingMsg : PokemonGameMessage :=
  { type := "ai_thinking_started", game_state := none, message := none,
    ai_decision := none, result := none, explanation := none }

/-- The ai_decision_made message of the spec scenario. -/
def decisionMsg : PokemonGameMessage :=
  { type := "ai_decision_made", game_state := some (sampleGameState 2),
    message := none, ai_decision := some squirtleDecision, result := none,
    explanation := none }

/- ===================== theorems ===================== -/

/-- C1: for every sequence of inbound game_state_update messages, the
    mirrored game state after processing the sequence equals exactly the
    game_state payload of the most recently processed message — wholesale
    replacement, never a field-by-field merge. -/
theorem game_state_update_wholesale (s : HookState)
    (ms : List PokemonGameMessage) (m : PokemonGameMessage)
    (hall : ∀ x ∈ ms, x.type = "game_state_update")
    (hlast : ms.getLast? = some m) :
    (ms.foldl processMessage s).gameState = m.game_state := by
  induction ms generalizing s with
  | nil => simp at hlast
  | cons x rest ih =>
    cases rest with
    | nil =>
      have hx : x.type = "game_state_update" := hall x (by simp)
      have hm : m = x := by
        simp only [List.getLast?_singleton, Option.some.injEq] at hlast
        exact hlast.symm
      subst hm
      simp [processMessage, hx]
    | cons y ys =>
      have hlast2 : (y :: ys).getLast? = some m := by
        simpa [List.getLast?_cons_cons] using hlast
      have hall2 : ∀ x ∈ y :: ys, x.type = "game_state_update" :=
        fun z hz => hall z (List.mem_cons_of_mem x hz)
      simpa using ih (processMessage s x) hall2 hlast2

/-- Witness for C1 at a concrete two-message sequence. -/
theorem game_state_update_wholesale_witness :
    (∀ x ∈ [gsuMsg (some (sampleGameState 1)), gsuMsg (some (sampleGameState 2))],
        x.type = "game_state_update") ∧
    ([gsuMsg (some (sampleGameState 1)), gsuMsg (some (sampleGameState 2))].foldl
        processMessage initialHookState).gameState = some (sampleGameState 2) :=
  ⟨by decide,
   game_state_update_wholesale initialHookState
     [gsuMsg (some (sampleGameState 1)), gsuMsg (some (sampleGameState 2))]
     (gsuMsg (some (sampleGameState 2))) (by decide) (by decide)⟩

/-- C8: with the connection not in the open state, every outbound action
    (simulate AI turn, player action, state request, reset, type advice)
    transmits nothing; the senders are total functions, so no exception
    escapes to the caller. -/
theorem send_disconnected_noop (s : WSService) (h : wsOpen s = false)
    (now : Nat) (a d atk dfn : String) :
    simulateAITurn s now = none ∧
    sendPlayerAction s a d now = none ∧
    requestGameState s = none ∧
    resetGame s now = none ∧
    requestTypeAdvice s atk dfn = none := by
  simp [simulateAITurn, sendPlayerAction, requestGameState, resetGame,
        requestTypeAdvice, send, h]

/-- Witness for C8 on the freshly constructed (disconnected) service. -/
theorem send_disconnected_noop_witness :
    wsOpen initService = false ∧
    simulateAITurn initService 0 = none :=
  ⟨by decide,
   (send_disconnected_noop initService (by decide) 0 "draw_card" "x" "Fire"
      "Grass").1⟩

/-- C10: the optimistic play_pokemon transform removes the played card
    from the hand and appends it to the bench when the child bench holds
    fewer than 5 cards, returns the state unchanged when the bench already
    holds 5 cards, and never grows the bench beyond 5. -/
theorem play_pokemon_bench_bound (prev : BoardState) (c : PokemonCard)
    (hlen : prev.childPlayer.benchedPokemon.length ≤ 5) :
    (prev.childPlayer.benchedPokemon.length < 5 →
      (playPokemonTransform prev c).childPlayer.benchedPokemon
          = prev.childPlayer.benchedPokemon ++ [c] ∧
      (playPokemonTransform prev c).childPlayer.hand
          = prev.childPlayer.hand.filter (fun p => p.id ≠ c.id)) ∧
    (prev.childPlayer.benchedPokemon.length = 5 →
      playPokemonTransform prev c = prev) ∧
    (playPokemonTransform prev c).childPlayer.benchedPokemon.length ≤ 5 := by
  refine ⟨fun hlt => ⟨?_, ?_⟩, fun h5 => ?_, ?_⟩
  · simp [playPokemonTransform, hlt]
  · simp [playPokemonTransform, hlt]
  · have hge : ¬ prev.childPlayer.benchedPokemon.length < 5 := by omega
    simp [playPokemonTransform, hge]
  · by_cases hlt : prev.childPlayer.benchedPokemon.length < 5
    · simp only [playPokemonTransform, if_pos hlt]
      simp
      omega
    · simp only [playPokemonTransform, if_neg hlt]
      exact hlen

/-- Witness for C10 on a concrete state with an empty bench and a one-card
    hand. -/
theorem play_pokemon_bench_bound_witness :
    sampleBoard.childPlayer.benchedPokemon.length ≤ 5 ∧
    (playPokemonTransform sampleBoard
        (sampleCard "c1")).childPlayer.benchedPokemon.length ≤ 5 :=
  ⟨by decide,
   (play_pokemon_bench_bound sampleBoard (sampleCard "c1") (by decide)).2.2⟩

/-- While a connect is already in flight, further connect() calls leave
    the service untouched and produce no effects. -/
theorem runEvents_connect_pending (s : WSService) (hs : s.isConnecting = true)
    (n : Nat) :
    runEvents s (List.replicate n SvcEvent.callConnect) = (s, []) := by
  induction n with
  | zero => rfl
  | succ k ih =>
    have hstep : stepEvent s SvcEvent.callConnect = (s, []) := by
      simp [stepEvent, hs]
    simp [List.replicate_succ, runEvents, hstep, ih]

/-- C3: connect() is idempotent while an attempt is pending or a
    connection is open — the call returns immediately with no effect, and
    any number of repeated connect() calls from a fresh service construct
    exactly one underlying socket, as does connect() while connected. -/
theorem connect_idempotent (s : WSService)
    (h : s.isConnecting = true ∨ wsOpen s = true) :
    stepEvent s SvcEvent.callConnect = (s, []) ∧
    (∀ n : Nat, countOpens (runEvents initService
        (List.replicate (n + 1) SvcEvent.callConnect)).2 = 1) ∧
    countOpens (runEvents initService
        [SvcEvent.callConnect, SvcEvent.openEvt, SvcEvent.callConnect]).2 = 1 := by
  refine ⟨?_, ?_, by decide⟩
  · rcases h with h | h <;> simp [stepEvent, h]
  · intro n
    have h1 : stepEvent initService SvcEvent.callConnect =
        ({ ws := some { readyState := ReadyState.connecting },
           reconnectAttempts := 0, isConnecting := true },
         [SvcEffect.socketOpened]) := by rfl
    have h2 := runEvents_connect_pending
        { ws := some { readyState := ReadyState.connecting },
          reconnectAttempts := 0, isConnecting := true } rfl n
    simp [List.replicate_succ, runEvents, h1, h2, countOpens]

/-- Witness for C3: a second connect() on a service with an attempt in
    flight changes nothing and opens no socket. -/
theorem connect_idempotent_witness :
    (pendingService.isConnecting = true ∨ wsOpen pendingService = true) ∧
    stepEvent pendingService SvcEvent.callConnect = (pendingService, []) :=
  ⟨Or.inl rfl, (connect_idempotent pendingService (Or.inl rfl)).1⟩

/-- C4 (amended): per close event at most one reconnect is scheduled; on
    an unclean close with budget left exactly one attempt is scheduled
    with delay 2000 ms times the new attempt count; after the fifth
    consecutive failure no further attempt is scheduled; the counter never
    exceeds 5; the counter is reset by a successful open — and calling
    connect() leaves the counter unchanged. -/
theorem reconnect_policy (s : WSService)
    (hb : s.reconnectAttempts ≤ maxReconnectAttempts) :
    (s.reconnectAttempts < maxReconnectAttempts →
      (stepEvent s (SvcEvent.closeEvt false)).2
          = [SvcEffect.emitted "disconnected",
             SvcEffect.scheduledReconnect (2000 * (s.reconnectAttempts + 1))] ∧
      (stepEvent s (SvcEvent.closeEvt false)).1.reconnectAttempts
          = s.reconnectAttempts + 1) ∧
    (s.reconnectAttempts = maxReconnectAttempts →
      scheduledDelays (stepEvent s (SvcEvent.closeEvt false)).2 = []) ∧
    scheduledDelays (stepEvent s (SvcEvent.closeEvt true)).2 = [] ∧
    (stepEvent s SvcEvent.openEvt).1.reconnectAttempts = 0 ∧
    (∀ e, (stepEvent s e).1.reconnectAttempts ≤ maxReconnectAttempts) ∧
    (stepEvent s SvcEvent.callConnect).1.reconnectAttempts
        = s.reconnectAttempts := by
  refine ⟨fun hlt => ?_, fun heq => ?_, ?_, by simp [stepEvent], fun e => ?_, ?_⟩
  · simp [stepEvent, hlt]
  · have : ¬ s.reconnectAttempts < maxReconnectAttempts := by omega
    simp [stepEvent, this, scheduledDelays]
  · simp [stepEvent, scheduledDelays]
  · cases e with
    | callConnect =>
      by_cases hc : s.isConnecting || wsOpen s <;> simp [stepEvent, hc, hb]
    | callDisconnect =>
      cases hw : s.ws <;> simp [stepEvent, hw, hb]
    | openEvt => simp [stepEvent]
    | closeEvt wasClean =>
      cases wasClean with
      | false =>
        by_cases hlt : s.reconnectAttempts < maxReconnectAttempts <;>
          simp [stepEvent, hlt] <;> omega
      | true => simp [stepEvent, hb]
    | errorEvt => simp [stepEvent, hb]
  · by_cases hc : s.isConnecting || wsOpen s <;> simp [stepEvent, hc]

/-- Witness for C4 at a concrete service with two prior failed attempts. -/
theorem reconnect_policy_witness :
    twoFailureService.reconnectAttempts ≤ maxReconnectAttempts ∧
    (stepEvent twoFailureService (SvcEvent.closeEvt false)).2
      = [SvcEffect.emitted "disconnected",
         SvcEffect.scheduledReconnect 6000] :=
  ⟨by decide,
   ((reconnect_policy twoFailureService (by decide)).1 (by decide)).1⟩

/-- C4, claim as stated, is false: after five consecutive failed attempts
    the counter sits at 5, and a manual connect() call starts a new socket
    but leaves the counter at 5 instead of resetting it (the reset happens
    only in the open handler). -/
theorem connect_does_not_reset_counter :
    exhaustedState.reconnectAttempts = 5 ∧
    wsOpen exhaustedState = false ∧
    exhaustedState.isConnecting = false ∧
    (stepEvent exhaustedState SvcEvent.callConnect).2
        = [SvcEffect.socketOpened] ∧
    (stepEvent exhaustedState SvcEvent.callConnect).1.reconnectAttempts = 5 := by
  decide

/-- C5 (amended): a reconnect is scheduled exactly on an unclean close
    event with remaining budget, whether or not the connection was ever
    successfully established; error events and connect calls never
    schedule one. -/
theorem reconnect_only_on_unclean_close (s : WSService) (e : SvcEvent)
    (d : Nat) :
    SvcEffect.scheduledReconnect d ∈ (stepEvent s e).2 ↔
      (e = SvcEvent.closeEvt false ∧
       s.reconnectAttempts < maxReconnectAttempts ∧
       d = 2000 * (s.reconnectAttempts + 1)) := by
  cases e with
  | callConnect =>
    by_cases hc : s.isConnecting || wsOpen s <;> simp [stepEvent, hc]
  | callDisconnect =>
    cases hw : s.ws <;> simp [stepEvent, hw]
  | openEvt => simp [stepEvent]
  | closeEvt wasClean =>
    cases wasClean with
    | false =>
      by_cases hlt : s.reconnectAttempts < maxReconnectAttempts <;>
        simp [stepEvent, hlt]
    | true => simp [stepEvent]
  | errorEvt => simp [stepEvent]

/-- C5, claim as stated, is false: a connect attempt followed by an
    unclean close before any open event — the shape of a connection-
    establishment failure — does schedule an automatic reconnection
    attempt (2000 ms delay), although the socket never reached the open
    state. -/
theorem establishment_failure_schedules_reconnect :
    countOpens (runEvents initService
        [SvcEvent.callConnect, SvcEvent.closeEvt false]).2 = 1 ∧
    scheduledDelays (runEvents initService
        [SvcEvent.callConnect, SvcEvent.closeEvt false]).2 = [2000] := by
  decide

/-- Closed form of a nonempty run of at most 20 appends: the log is the
    surviving window of the previous log followed by the appended
    entries. -/
theorem foldl_addToGameLog_window :
    ∀ (ms : List String), ms ≠ [] → ms.length ≤ 20 →
      ∀ init : List String,
        ms.foldl addToGameLog init
          = init.drop (init.length - (20 - ms.length)) ++ ms := by
  intro ms
  induction ms with
  | nil => intro h; exact absurd rfl h
  | cons m rest ih =>
    intro _ hlen init
    cases rest with
    | nil => simp [addToGameLog]
    | cons y ys =>
      have hlen2 : (y :: ys).length ≤ 20 := by
        simp only [List.length_cons] at hlen ⊢
        omega
      rw [List.foldl_cons, ih (by simp) hlen2 (addToGameLog init m)]
      have ha : addToGameLog init m = init.drop (init.length - 19) ++ [m] := rfl
      rw [ha]
      rw [List.drop_append_eq_append_drop, List.drop_drop]
      have hr : (y :: ys).length ≤ 19 := by
        simp only [List.length_cons] at hlen ⊢
        omega
      have hj : (init.drop (init.length - 19) ++ [m]).length -
          (20 - (y :: ys).length) - (init.drop (init.length - 19)).length
            = 0 := by
        simp only [List.length_append, List.length_drop,
          List.length_singleton, List.length_cons, List.length_nil] at hlen ⊢
        omega
      rw [hj, List.drop_zero]
      have hi : init.length - 19 +
          ((init.drop (init.length - 19) ++ [m]).length -
            (20 - (y :: ys).length))
            = init.length - (20 - (m :: y :: ys).length) := by
        simp only [List.length_append, List.length_drop,
          List.length_singleton, List.length_cons, List.length_nil] at hlen ⊢
        omega
      rw [hi]
      simp

/-- C2: starting from any log within the 20-entry cap, the log never
    exceeds 20 entries, and after more than 20 appends it equals exactly
    the last 20 appended entries in arrival order. -/
theorem log_capacity (init ms : List String) (hinit : init.length ≤ 20) :
    (ms.foldl addToGameLog init).length ≤ 20 ∧
    (20 < ms.length →
      ms.foldl addToGameLog init = ms.drop (ms.length - 20)) := by
  constructor
  · induction ms generalizing init with
    | nil => exact hinit
    | cons m rest ih =>
      rw [List.foldl_cons]
      apply ih
      simp only [addToGameLog, List.length_append, List.length_drop,
        List.length_singleton]
      omega
  · intro hN
    have hform := List.take_append_drop (ms.length - 20) ms
    have hsuf : (ms.drop (ms.length - 20)).length = 20 := by
      rw [List.length_drop]
      omega
    have hne : ms.drop (ms.length - 20) ≠ [] := by
      intro hc
      rw [hc] at hsuf
      simp at hsuf
    calc ms.foldl addToGameLog init
        = (ms.take (ms.length - 20) ++ ms.drop (ms.length - 20)).foldl
            addToGameLog init := by rw [hform]
      _ = (ms.drop (ms.length - 20)).foldl addToGameLog
            ((ms.take (ms.length - 20)).foldl addToGameLog init) :=
          List.foldl_append ..
      _ = ms.drop (ms.length - 20) := by
          rw [foldl_addToGameLog_window _ hne (by omega)]
          rw [hsuf]
          simp

/-- Witness for C2: the hook initial log plus 21 appended entries yields
    exactly the last 20 of them. -/
theorem log_capacity_witness :
    initialGameLog.length ≤ 20 ∧ 20 < manyLogEntries.length ∧
    (manyLogEntries.foldl addToGameLog initialGameLog).length ≤ 20 ∧
    manyLogEntries.foldl addToGameLog initialGameLog
      = manyLogEntries.drop (manyLogEntries.length - 20) :=
  ⟨by decide, by decide,
   (log_capacity initialGameLog manyLogEntries (by decide)).1,
   (log_capacity initialGameLog manyLogEntries (by decide)).2 (by decide)⟩

/-- C6 (amended): a game_reset message wholesale-replaces the mirrored
    game state, clears the stored AI decision, and replaces the log
    entirely with the fixed client-side restart narrative. -/
theorem game_reset_replaces_log (s : HookState) (m : PokemonGameMessage)
    (ht : m.type = "game_reset") :
    processMessage s m
      = { s with gameState := m.game_state, aiDecision := none,
                 gameLog := ["🎮 New Pokemon battle started!",
                             "🔥 Choose your first move!"] } := by
  simp [processMessage, ht]

/-- Witness for C6 (amended) at a concrete reset message. -/
theorem game_reset_replaces_log_witness :
    resetMsgWithNarrative.type = "game_reset" ∧
    (processMessage initialHookState resetMsgWithNarrative).aiDecision
        = none :=
  ⟨rfl, by
    rw [game_reset_replaces_log initialHookState resetMsgWithNarrative rfl]⟩

/-- C6, claim as stated, is false: the restart narrative written to the
    log is hardcoded in the client; a server-provided narrative text in
    the game_reset message never reaches the log. -/
theorem game_reset_ignores_server_narrative :
    resetMsgWithNarrative.type = "game_reset" ∧
    resetMsgWithNarrative.message = some serverNarrative ∧
    (processMessage initialHookState resetMsgWithNarrative).gameLog
      = ["🎮 New Pokemon battle started!", "🔥 Choose your first move!"] ∧
    serverNarrative ∉
      (processMessage initialHookState resetMsgWithNarrative).gameLog := by
  decide

/-- C9: an ai_thinking_started message flips aiThinking true and clears
    the stored decision; a following ai_decision_made message with an
    explanation and a nonempty type lesson (and no strategic insight)
    flips aiThinking false, stores the decision, wholesale-replaces the
    mirrored game state, and appends exactly two log lines — one carrying
    the explanation, then one carrying the lesson. -/
theorem thinking_then_decision (s : HookState) (m1 m2 : PokemonGameMessage)
    (d : AIDecision) (lesson : String)
    (h1 : m1.type = "ai_thinking_started")
    (h2 : m2.type = "ai_decision_made")
    (hd : m2.ai_decision = some d)
    (hl : d.type_lesson = some lesson) (hle : lesson ≠ "")
    (hsi : d.strategic_insight = none) :
    (processMessage s m1).aiThinking = true ∧
    (processMessage s m1).aiDecision = none ∧
    (processMessage (processMessage s m1) m2).aiThinking = false ∧
    (processMessage (processMessage s m1) m2).aiDecision = some d ∧
    (processMessage (processMessage s m1) m2).gameState = m2.game_state ∧
    (processMessage (processMessage s m1) m2).gameLog
      = addToGameLog
          (addToGameLog (processMessage s m1).gameLog
            ("🤖 AI Decision: " ++ d.explanation))
          ("🎓 " ++ lesson) := by
  simp [processMessage, h1, h2, handleAiDecisionMade, hd, hl, hsi,
        jsTruthy, hle]

/-- Witness for C9 at the concrete spec scenario (Squirtle explanation and
    Water-beats-Fire lesson). -/
theorem thinking_then_decision_witness :
    decisionMsg.ai_decision = some squirtleDecision ∧
    (processMessage (processMessage initialHookState thinkingMsg)
        decisionMsg).gameLog
      = addToGameLog
          (addToGameLog (processMessage initialHookState thinkingMsg).gameLog
            ("🤖 AI Decision: " ++ squirtleDecision.explanation))
          ("🎓 " ++ "Water beats Fire") :=
  ⟨rfl,
   (thinking_then_decision initialHookState thinkingMsg decisionMsg
      squirtleDecision "Water beats Fire" rfl rfl rfl rfl (by decide)
      rfl).2.2.2.2.2⟩

/-- Running one handler in the emit loop always yields an outcome tagged
    with that handler, whether it completes or throws. -/
theorem emit_outcome_hid (h : Handler) (m : PokemonGameMessage) :
    outcomeHid (match h.run m with
      | Except.ok _ => HandlerOutcome.completed h.hid
      | Except.error e => HandlerOutcome.caught h.hid e) = h.hid := by
  cases h.run m <;> rfl

/-- The registry built from a sequence of on() calls holds, under each
    key, exactly the handlers registered for that key in registration
    order. -/
theorem buildRegistry_from (regs : List (String × Handler)) :
    ∀ (r : EventRegistry) (t : String),
      (regs.foldl (fun acc p => registerOn acc p.1 p.2) r) t
        = r t ++ (regs.filter (fun p => p.1 = t)).map Prod.snd := by
  induction regs with
  | nil => intro r t; simp
  | cons p rest ih =>
    intro r t
    rw [List.foldl_cons, ih]
    by_cases hp : p.1 = t
    · have hreg : (registerOn r p.1 p.2) t = r t ++ [p.2] := by
        simp [registerOn, hp]
      rw [hreg]
      simp [List.filter_cons, hp]
    · have hreg : (registerOn r p.1 p.2) t = r t := by
        have : ¬ t = p.1 := fun hc => hp hc.symm
        simp [registerOn, this]
      rw [hreg]
      simp [List.filter_cons, hp]

/-- C7: dispatching an inbound message invokes every handler registered
    for its specific type, then every handler on the generic wildcard
    channel, each group in registration order — and this holds whatever
    the handlers do, including throwing: a throw is caught as an outcome
    and never stops the remaining invocations. -/
theorem dispatch_invokes_all (regs : List (String × Handler))
    (m : PokemonGameMessage) :
    invokedHids (handleMessage (buildRegistry regs) m)
      = registeredHids regs m.type ++ registeredHids regs "message" := by
  unfold handleMessage invokedHids
  rw [List.map_append]
  congr 1
  · unfold emit buildRegistry registeredHids
    rw [buildRegistry_from regs emptyRegistry m.type]
    simp only [emptyRegistry, List.nil_append, List.map_map]
    apply List.map_congr_left
    intro p _
    cases hr : p.2.run m <;> simp [Function.comp, hr, outcomeHid]
  · unfold emit buildRegistry registeredHids
    rw [buildRegistry_from regs emptyRegistry "message"]
    simp only [emptyRegistry, List.nil_append, List.map_map]
    apply List.map_congr_left
    intro p _
    cases hr : p.2.run m <;> simp [Function.comp, hr, outcomeHid]

end PokemonTCG
